import Mathlib

/-!
Shallow embedding of the sync/cache/aggregation core of the
s2u_order_management repository, together with theorems settling the
frozen claims about its specification.

Sources embedded:
  - src/s2u_project/inventory/korona.py
      (calculate_monthly_sales, calculate_monthly_sales_bulk)
  - src/s2u_project/inventory/management/commands/sync_monthly_sales.py
      (fetch_and_aggregate_sales, calculate_monthly_needed)
  - src/s2u_project/inventory/management/commands/sync_all_monthly_sales.py
      (Command._aggregate_sales)
  - src/s2u_project/inventory/management/commands/sync_stocks.py
      (Command.handle per-product body, Command._clear_product_stocks)
  - src/s2u_project/inventory/views.py (monthly_sales_api)

Modelling conventions:
  - JSON numbers (line-item quantities) are modelled as rationals
    holding the decimal value written in the JSON text.  The two
    management commands accumulate `Decimal(str(...))` values, which is
    exact rational arithmetic.  The korona.py aggregators accumulate
    Python binary64 floats: the structural claims use an
    exact-arithmetic idealization of those two functions, and every
    concrete input they are evaluated at is a small integer, on which
    binary64 arithmetic is exact, so those evaluations match what the
    Python code computes; the arithmetic-representation claim uses the
    faithful binary64 model (roundB64, fadd) instead.
  - A page request that raises (requests exception, circuit breaker
    open, JSON decode error) is modelled as `Except.error ()`; a page
    that returns is `Except.ok` of its parsed body.
  - Python dicts are modelled as association lists with
    insert-or-overwrite-in-place semantics (`pyDictSet`), matching
    CPython dict key ordering and key-set behaviour.
  - `int(x)` on a number is truncation toward zero (`pyInt`).
-/

namespace S2U

/-- One line item of a receipt: the `product.id` field (absent when the
JSON has no product object or no id) and the `quantity` field
(`item.get('quantity', 0)`: a missing quantity reads as 0). -/
structure LineItem where
  productId : Option String
  quantity : ℚ
  deriving DecidableEq

/-- One receipt from the receipts endpoint: `voided` and `cancelled`
flags, the `organizationalUnit.id` reference (absent when the receipt
has no organizational unit or no id), and its line items. -/
structure Receipt where
  voided : Bool
  cancelled : Bool
  orgUnitId : Option String
  items : List LineItem
  deriving DecidableEq

/-- One parsed page body of the receipts endpoint: the `results` list
and the `pagesTotal` field (`data.get('pagesTotal', 1)`). -/
structure ReceiptsPage where
  results : List Receipt
  pagesTotal : Nat
  deriving DecidableEq

/-- Outcome of requesting one page: a parsed body, or a raised request
or parse error. -/
abbrev PageResp := Except Unit ReceiptsPage

/-- Python dict assignment `d[k] = v`: overwrite in place when the key
exists, otherwise append at the end. -/
def pyDictSet {α β : Type} [DecidableEq α] : List (α × β) → α → β → List (α × β)
  | [], k, v => [(k, v)]
  | (k1, v1) :: rest, k, v =>
    if k1 = k then (k, v) :: rest else (k1, v1) :: pyDictSet rest k v

/-- Python dict lookup `d.get(k)`. -/
def pyDictGet {α β : Type} [DecidableEq α] : List (α × β) → α → Option β
  | [], _ => none
  | (k1, v1) :: rest, k => if k1 = k then some v1 else pyDictGet rest k

/-- Python dict comprehension over a list of key-value pairs: later
occurrences of a key overwrite earlier ones. -/
def pyDictOfList {α β : Type} [DecidableEq α] (l : List (α × β)) : List (α × β) :=
  l.foldl (fun d kv => pyDictSet d kv.1 kv.2) []

/-- Python `int(x)` applied to a number: truncation toward zero. -/
def pyInt (q : ℚ) : ℤ :=
  if 0 ≤ q then ⌊q⌋ else ⌈q⌉

/-- The page loop shared verbatim by the four receipt scans
(korona.py lines 275-321 and 369-420, sync_monthly_sales.py lines
125-181, sync_all_monthly_sales.py lines 131-164).  Each iteration
requests the next page; a raised request error is caught, logged and
breaks the loop, returning the accumulator as is; an empty `results`
list breaks the loop; otherwise the page is processed and the loop
breaks when `page >= pagesTotal`.  (sync_all_monthly_sales.py reads
`data.get('pagesTotal') or 1` instead of `data.get('pagesTotal', 1)`;
the two differ only when `pagesTotal` is 0, where both terminate the
loop, so one model covers all four loops.)  The list holds the
responses for pages `pageNo`, `pageNo + 1`, ...; a page past the end of
the list is a page with no results. -/
def receiptScan {α : Type} (step : List Receipt → α → α) :
    List PageResp → Nat → α → α
  | [], _, acc => acc
  | Except.error _ :: _, _, acc => acc
  | Except.ok pg :: rest, pageNo, acc =>
    if pg.results.isEmpty then acc
    else
      let acc1 := step pg.results acc
      if pg.pagesTotal ≤ pageNo then acc1
      else receiptScan step rest (pageNo + 1) acc1

/-- Per-receipt body of korona.calculate_monthly_sales (lines 295-311):
skip voided or cancelled receipts, skip receipts whose organizational
unit id differs from the requested store id, then add the quantity of
every item whose product id equals the requested product id (no
positivity filter). -/
def singleReceiptStep (productId storeId : String) (acc : ℚ) (r : Receipt) : ℚ :=
  if r.voided || r.cancelled then acc
  else if r.orgUnitId ≠ some storeId then acc
  else r.items.foldl
    (fun t it => if it.productId = some productId then t + it.quantity else t) acc

/-- Per-page body of korona.calculate_monthly_sales. -/
def singlePageStep (productId storeId : String) (rs : List Receipt) (acc : ℚ) : ℚ :=
  rs.foldl (singleReceiptStep productId storeId) acc

/-- korona.calculate_monthly_sales (lines 241-324): scan the receipt
pages of the date window starting from page 1 with running total 0.0,
and return `int(total_qty)`. -/
def calculate_monthly_sales (productId storeId : String) (pages : List PageResp) : ℤ :=
  pyInt (receiptScan (singlePageStep productId storeId) pages 1 0)

/-- The `store_map` dict of korona.calculate_monthly_sales_bulk (line
352): korona store id to local db id, later pairs overwriting earlier
ones. -/
def storeMap (stores : List (Int × String)) : List (String × Int) :=
  pyDictOfList (stores.map fun s => (s.2, s.1))

/-- The `results` dict initialisation of korona.calculate_monthly_sales_bulk
(line 349): every requested local store id mapped to 0. -/
def resultsInit (stores : List (Int × String)) : List (Int × ℚ) :=
  pyDictOfList (stores.map fun s => (s.1, (0 : ℚ)))

/-- Python `results[store_db_id] += qty` (korona.py line 409).  In the
source the key is always present (store_map values are requested db
ids, all keys of results); the absent-key branch is unreachable there
and modelled as an insert. -/
def pyDictAdd (d : List (Int × ℚ)) (k : Int) (q : ℚ) : List (Int × ℚ) :=
  pyDictSet d k (((pyDictGet d k).getD 0) + q)

/-- Per-receipt body of korona.calculate_monthly_sales_bulk (lines
390-410): skip voided or cancelled receipts, look the organizational
unit id up in store_map and skip receipts of unrequested stores, then
add the quantity of every item of the requested product to that store
entry (no positivity filter). -/
def bulkReceiptStep (productId : String) (sm : List (String × Int))
    (acc : List (Int × ℚ)) (r : Receipt) : List (Int × ℚ) :=
  if r.voided || r.cancelled then acc
  else
    match r.orgUnitId with
    | none => acc
    | some k =>
      match pyDictGet sm k with
      | none => acc
      | some db =>
        r.items.foldl
          (fun d it => if it.productId = some productId then pyDictAdd d db it.quantity else d)
          acc

/-- Per-page body of korona.calculate_monthly_sales_bulk. -/
def bulkPageStep (productId : String) (sm : List (String × Int))
    (rs : List Receipt) (acc : List (Int × ℚ)) : List (Int × ℚ) :=
  rs.foldl (bulkReceiptStep productId sm) acc

/-- korona.calculate_monthly_sales_bulk (lines 327-428): initialise a
result entry of 0 per requested local store id, scan the receipt pages
once from page 1, and return `int` of each accumulated quantity. -/
def calculate_monthly_sales_bulk (productId : String)
    (stores : List (Int × String)) (pages : List PageResp) : List (Int × ℤ) :=
  let res := receiptScan (bulkPageStep productId (storeMap stores)) pages 1 (resultsInit stores)
  res.map fun kv => (kv.1, pyInt kv.2)

/-- The nested aggregation map of the two full-scan commands:
store korona id to product korona id to total quantity.  Both commands
use `defaultdict(lambda: defaultdict(Decimal))`, so every key
conceptually carries 0 until bumped; the map is modelled as a total
function. -/
abbrev SalesMap := String → String → ℚ

/-- Python `sales[store_id][product_id] += qty` on the nested
defaultdict. -/
def bumpSales (m : SalesMap) (s p : String) (q : ℚ) : SalesMap :=
  fun s1 p1 => if s1 = s ∧ p1 = p then m s1 p1 + q else m s1 p1

/-- Per-receipt body of sync_monthly_sales.Command.fetch_and_aggregate_sales
(lines 145-169): skip voided or cancelled receipts, skip receipts with
a missing or empty organizational unit id, then add the quantity of
every item whose product id is present and non-empty and whose
quantity is strictly positive (returns with negative quantity are
excluded). -/
def fullScanReceiptStep (m : SalesMap) (r : Receipt) : SalesMap :=
  if r.voided || r.cancelled then m
  else
    match r.orgUnitId with
    | none => m
    | some s =>
      if s = "" then m
      else
        r.items.foldl
          (fun acc it =>
            match it.productId with
            | none => acc
            | some p => if p ≠ "" ∧ 0 < it.quantity then bumpSales acc s p it.quantity else acc)
          m

/-- sync_monthly_sales.Command.fetch_and_aggregate_sales (lines
95-196): scan every receipt page of the window once and aggregate per
store and product. -/
def fetch_and_aggregate_sales (pages : List PageResp) : SalesMap :=
  receiptScan (fun rs m => rs.foldl fullScanReceiptStep m) pages 1 (fun _ _ => 0)

/-- Per-receipt body of sync_all_monthly_sales.Command._aggregate_sales
(lines 149-161).  Identical rules to fetch_and_aggregate_sales:
voided or cancelled receipts skipped, falsy store id skipped, and only
items with a truthy product id and quantity strictly greater than 0
counted (the source reads the quantity as `item.get('quantity') or 0`,
which agrees numerically with `item.get('quantity', 0)`). -/
def allScanReceiptStep (m : SalesMap) (r : Receipt) : SalesMap :=
  if r.voided || r.cancelled then m
  else
    match r.orgUnitId with
    | none => m
    | some s =>
      if s = "" then m
      else
        r.items.foldl
          (fun acc it =>
            match it.productId with
            | none => acc
            | some p => if p ≠ "" ∧ 0 < it.quantity then bumpSales acc s p it.quantity else acc)
          m

/-- sync_all_monthly_sales.Command._aggregate_sales (lines 121-167):
scan every receipt page of the window once and aggregate per store and
product. -/
def sync_all_aggregate_sales (pages : List PageResp) : SalesMap :=
  receiptScan (fun rs m => rs.foldl allScanReceiptStep m) pages 1 (fun _ _ => 0)

/-- Decimal `.quantize(Decimal("1"))` under the default context
(rounding mode ROUND_HALF_EVEN) followed by Python `int()` on the
resulting integral Decimal: the nearer of the two neighbouring
integers, ties resolved to the even neighbour.  The argument values
relevant to the claims keep well under the 28-significant-digit
context precision, where Decimal arithmetic is exact rational
arithmetic. -/
def decQuantizeInt (q : ℚ) : ℤ :=
  let f := ⌊q⌋
  if q - (f : ℚ) < ((f : ℚ) + 1) - q then f
  else if ((f : ℚ) + 1) - q < q - (f : ℚ) then f + 1
  else if Even f then f else f + 1

/-- Per-(store, product) body of
sync_monthly_sales.Command.calculate_monthly_needed (lines 198-222):
`daily_avg = total_quantity / days_period`,
`monthly_qty = int((daily_avg * 30).quantize(Decimal("1")))`,
result `max(1, monthly_qty)`. -/
def calculate_monthly_needed (total_quantity : ℚ) (days_period : ℕ) : ℤ :=
  let daily_avg := total_quantity / (days_period : ℚ)
  let monthly_qty := decQuantizeInt (daily_avg * 30)
  max 1 monthly_qty

/-- Modelled from the spec: the claimed formula
`max(1, round(total_quantity_in_window / window_days * 30))` with
standard round-half-up (a scaled value of exactly 2.5 yields 3),
written from the words of the spec for comparison with the code. -/
def spec_monthly_needed (total_quantity : ℚ) (days : ℕ) : ℤ :=
  max 1 ⌊total_quantity / (days : ℚ) * 30 + 1 / 2⌋

/-- Round half to even, written from the words of the amended claim:
take the floor when the fractional part is below one half, the
ceiling when above, and the even neighbour on an exact tie. -/
def roundHalfEven (q : ℚ) : ℤ :=
  if Int.fract q < 1 / 2 then ⌊q⌋
  else if 1 / 2 < Int.fract q then ⌊q⌋ + 1
  else if Even ⌊q⌋ then ⌊q⌋ else ⌊q⌋ + 1

/-- The amended monthly-need formula:
`max(1, round_half_even(total_quantity_in_window / window_days * 30))`. -/
def spec_monthly_needed_half_even (total_quantity : ℚ) (days : ℕ) : ℤ :=
  max 1 (roundHalfEven (total_quantity / (days : ℚ) * 30))

/-- One persisted MonthlySales row as monthly_sales_api sees it: the
quantity_sold column and the is_stale property (age above 30
minutes, computed from calculated_at; modelled as the boolean it
evaluates to at request time). -/
structure MonthlyRow where
  quantity_sold : ℤ
  stale : Bool
  deriving DecidableEq

/-- The cache state monthly_sales_api reads for one product: the parsed
Redis value per local store id (present only when the raw value exists
and is all digits) and the persisted MonthlySales row per local store
id. -/
structure SalesState where
  redisVal : Int → Option ℤ
  dbRow : Int → Option MonthlyRow

/-- Tier outcome for one requested store in monthly_sales_api. -/
inductive TierOutcome where
  | cached (q : ℤ)
  | needs
  deriving DecidableEq

/-- Tier 1-2 lookup of monthly_sales_api (views.py lines 863-892): with
force refresh every store needs calculation; otherwise a Redis hit is
returned directly, a fresh (non-stale) MonthlySales row is returned,
and a stale or missing row sends the store to the live-calculation
list. -/
def tierLookup (st : SalesState) (force : Bool) (storeId : Int) : TierOutcome :=
  if force then TierOutcome.needs
  else
    match st.redisVal storeId with
    | some q => TierOutcome.cached q
    | none =>
      match st.dbRow storeId with
      | some row => if row.stale then TierOutcome.needs else TierOutcome.cached row.quantity_sold
      | none => TierOutcome.needs

/-- views.monthly_sales_api (lines 856-943), the sales_data it returns
for a request over the given store ids: tier 1-2 results first; then,
when some stores need live calculation, the bulk aggregation is
invoked once.  On success each needing store receives
`bulk_sales.get(store.id, 0)`; on a raised failure each needing store
with a persisted row receives that row's quantity_sold (stale or not)
and each needing store without one is skipped.  The bulk argument is
the outcome of the calculate_monthly_sales_bulk call; cache
write-backs are side effects outside the returned value. -/
def monthly_sales_api (st : SalesState) (force : Bool) (storesList : List Int)
    (bulk : Except Unit (List (Int × ℤ))) : List (Int × ℤ) :=
  let tier := storesList.map fun s => (s, tierLookup st force s)
  let cached := tier.filterMap fun x =>
    match x.2 with
    | TierOutcome.cached q => some (x.1, q)
    | TierOutcome.needs => none
  let needing := tier.filterMap fun x =>
    match x.2 with
    | TierOutcome.needs => some x.1
    | TierOutcome.cached _ => none
  let fromCalc :=
    if needing.isEmpty then []
    else
      match bulk with
      | Except.ok m => needing.map fun s => (s, (pyDictGet m s).getD 0)
      | Except.error _ => needing.filterMap fun s => (st.dbRow s).map fun row => (s, row.quantity_sold)
  pyDictOfList (cached ++ fromCalc)

/-- One reported entry of the per-product stock payload
(`payload["results"]`), reduced to the field the pruning claim is
about: the `warehouse.id` reference (absent when the entry has no
warehouse object or no id). -/
structure StockEntry where
  warehouseId : Option String
  deriving DecidableEq

/-- The `seen_store_ids` list built by sync_stocks.Command.handle
(lines 90-112): the warehouse ids of the reported entries that are
present, truthy, and resolve to a known local store.  A syntactically
invalid UUID cannot be a key of the local store map, so the
invalid-UUID skip (lines 96-102) is folded into the membership
test. -/
def seenStoreIds (knownStores : List String) (entries : List StockEntry) : List String :=
  entries.filterMap fun e =>
    match e.warehouseId with
    | none => none
    | some w => if w = "" then none else if w ∈ knownStores then some w else none

/-- Per-product body of sync_stocks.Command.handle (lines 82-139) plus
Command._clear_product_stocks (lines 151-167), acting on the set of
store korona ids that have a ProductStock row for this product.  A
204/None payload deletes every row; otherwise each entry that resolves
to a known store is upserted, and afterwards — only when at least one
entry resolved — every row whose store is not among the resolved ids
is deleted.  The upserts and the prune run inside one
transaction.atomic block, modelled as a single state transition. -/
def sync_stock_product (knownStores : List String)
    (payload : Option (List StockEntry)) (rows : Finset String) : Finset String :=
  match payload with
  | none => ∅
  | some entries =>
    let seen := seenStoreIds knownStores entries
    let upserted := rows ∪ seen.toFinset
    if seen.isEmpty then upserted else upserted.filter fun w => w ∈ seen

/-- Decides that a list of page bodies keeps the scan loop running:
every page has a non-empty results list and reports a pagesTotal
strictly beyond its own page number. -/
def scanAdvancesB : List ReceiptsPage → Nat → Bool
  | [], _ => true
  | pg :: rest, n => !pg.results.isEmpty && decide (n < pg.pagesTotal) && scanAdvancesB rest (n + 1)

/-- Apply a per-receipt transformation to every receipt of every
successful page, keeping page boundaries and pagesTotal fields. -/
def mapPages (f : Receipt → Receipt) (pages : List PageResp) : List PageResp :=
  pages.map (Except.map fun pg => ⟨pg.results.map f, pg.pagesTotal⟩)

/-- Empty the line items of voided or cancelled receipts, leaving other
receipts untouched. -/
def wipeVoided (r : Receipt) : Receipt :=
  if r.voided || r.cancelled then { r with items := [] } else r

/-- Remove the line items with non-positive quantity from a receipt. -/
def dropNonposItems (r : Receipt) : Receipt :=
  { r with items := r.items.filter fun it => 0 < it.quantity }

/-- Decides that no line item of any successful page references the
given product id. -/
def noProductHits (productId : String) (pages : List PageResp) : Bool :=
  pages.all fun pr =>
    match pr with
    | Except.error _ => true
    | Except.ok pg =>
      pg.results.all fun r => r.items.all fun it => !decide (it.productId = some productId)

/-- Binary64 (IEEE-754 double) rounding, as a pure rational function:
round to nearest with a 53-bit significand, ties to even.  For
non-zero q the exponent e places the magnitude over [2^52, 2^53); the
scaled value is rounded to the nearest integer, ties to the even
neighbour, and scaled back.  This covers the normal range of binary64;
every value arising in this development is normal (no subnormals, no
overflow). -/
def roundB64 (q : ℚ) : ℚ :=
  if q = 0 then 0
  else
    let e : ℤ := Int.log 2 |q| - 52
    let m : ℤ := roundHalfEven (|q| / (2 : ℚ) ^ e)
    (if q < 0 then -1 else 1) * (m : ℚ) * (2 : ℚ) ^ e

/-- Binary64 addition: the exact sum rounded to the nearest double.
Models the Python float addition performed by the korona.py
accumulators. -/
def fadd (a b : ℚ) : ℚ :=
  roundB64 (a + b)

/-- Python dict `results[k] += q` when the value is accumulated in
binary64 floats, as in korona.py line 409. -/
def pyDictAddF (d : List (Int × ℚ)) (k : Int) (q : ℚ) : List (Int × ℚ) :=
  pyDictSet d k (fadd ((pyDictGet d k).getD 0) q)

/-- Per-receipt body of korona.calculate_monthly_sales with its
arithmetic modelled faithfully as binary64: identical control flow to
singleReceiptStep, but each quantity is the double the JSON parser
produces for the decimal literal (roundB64 of the written value) and
the running sum is accumulated with float addition. -/
def singleReceiptStepFloat (productId storeId : String) (acc : ℚ) (r : Receipt) : ℚ :=
  if r.voided || r.cancelled then acc
  else if r.orgUnitId ≠ some storeId then acc
  else r.items.foldl
    (fun t it => if it.productId = some productId then fadd t (roundB64 it.quantity) else t) acc

/-- korona.calculate_monthly_sales (lines 241-324) with the source's
arithmetic: total_qty starts at 0.0 and is accumulated in Python
binary64 floats, with int() truncation at the end.  The
LineItem.quantity field holds the decimal value written in the JSON
text. -/
def calculate_monthly_sales_float (productId storeId : String) (pages : List PageResp) : ℤ :=
  pyInt (receiptScan
    (fun rs acc => rs.foldl (singleReceiptStepFloat productId storeId) acc) pages 1 0)

/-- Per-receipt body of korona.calculate_monthly_sales_bulk with
binary64 float accumulation (lines 390-410). -/
def bulkReceiptStepFloat (productId : String) (sm : List (String × Int))
    (acc : List (Int × ℚ)) (r : Receipt) : List (Int × ℚ) :=
  if r.voided || r.cancelled then acc
  else
    match r.orgUnitId with
    | none => acc
    | some k =>
      match pyDictGet sm k with
      | none => acc
      | some db =>
        r.items.foldl
          (fun d it =>
            if it.productId = some productId then pyDictAddF d db (roundB64 it.quantity) else d)
          acc

/-- korona.calculate_monthly_sales_bulk (lines 327-428) with the
source's binary64 float accumulation. -/
def calculate_monthly_sales_bulk_float (productId : String)
    (stores : List (Int × String)) (pages : List PageResp) : List (Int × ℤ) :=
  let res := receiptScan
    (fun rs acc => rs.foldl (bulkReceiptStepFloat productId (storeMap stores)) acc)
    pages 1 (resultsInit stores)
  res.map fun kv => (kv.1, pyInt kv.2)

/-- A page with one valid receipt at store S holding ten line items of
product P, each with the JSON quantity literal 0.1. -/
def tenTenthsPages : List PageResp :=
  [Except.ok ⟨[⟨false, false, some "S",
    [⟨some "P", 1 / 10⟩, ⟨some "P", 1 / 10⟩, ⟨some "P", 1 / 10⟩, ⟨some "P", 1 / 10⟩,
      ⟨some "P", 1 / 10⟩, ⟨some "P", 1 / 10⟩, ⟨some "P", 1 / 10⟩, ⟨some "P", 1 / 10⟩,
      ⟨some "P", 1 / 10⟩, ⟨some "P", 1 / 10⟩]⟩], 1⟩]

/-- A one-receipt page used by concrete witnesses: one valid receipt at
store S with a single line item of product P, quantity 5, reporting two
total pages. -/
def samplePage : ReceiptsPage :=
  ⟨[⟨false, false, some "S", [⟨some "P", 5⟩]⟩], 2⟩

/-- A concrete cache state for the monthly-sales query: stores 1 and 2
have fast-tier (Redis) hits of 7 and 9; stores 1 and 3 have stale
persisted MonthlySales rows of 5 and 3; store 2 has no persisted
row. -/
def c8state : SalesState :=
  ⟨fun k => if k = 1 then some 7 else if k = 2 then some 9 else none,
    fun k => if k = 1 then some ⟨5, true⟩ else if k = 3 then some ⟨3, true⟩ else none⟩

/-! Helper lemmas about the Python dict model. -/

theorem pyDictGet_nil {α β : Type} [DecidableEq α] (k : α) :
    pyDictGet ([] : List (α × β)) k = none := rfl

theorem pyDictGet_set_self {α β : Type} [DecidableEq α] (d : List (α × β)) (k : α) (v : β) :
    pyDictGet (pyDictSet d k v) k = some v := by
  induction d with
  | nil => simp [pyDictSet, pyDictGet]
  | cons kv rest ih =>
    obtain ⟨k1, v1⟩ := kv
    by_cases h : k1 = k
    · subst h
      simp [pyDictSet, pyDictGet]
    · simp [pyDictSet, pyDictGet, h, ih]

theorem pyDictGet_set_ne {α β : Type} [DecidableEq α] (d : List (α × β)) (k : α) (v : β)
    (k1 : α) (h : k1 ≠ k) :
    pyDictGet (pyDictSet d k v) k1 = pyDictGet d k1 := by
  have hk : k ≠ k1 := fun hc => h hc.symm
  induction d with
  | nil => simp [pyDictSet, pyDictGet, hk]
  | cons kv rest ih =>
    obtain ⟨k2, v2⟩ := kv
    by_cases h2 : k2 = k
    · subst h2
      simp [pyDictSet, pyDictGet, hk]
    · simp only [pyDictSet, pyDictGet, h2, if_false]
      by_cases h3 : k2 = k1
      · simp [h3]
      · simp [h3, ih]

theorem pyDictGet_set_isSome {α β : Type} [DecidableEq α] (d : List (α × β)) (k : α) (v : β)
    (k1 : α) :
    (pyDictGet (pyDictSet d k v) k1).isSome ↔ k1 = k ∨ (pyDictGet d k1).isSome := by
  by_cases h : k1 = k
  · subst h
    simp [pyDictGet_set_self]
  · simp [pyDictGet_set_ne d k v k1 h, h]

theorem pyDictFold_get_not_mem {α β : Type} [DecidableEq α] (l : List (α × β))
    (d : List (α × β)) (k : α) (h : k ∉ l.map Prod.fst) :
    pyDictGet (l.foldl (fun d1 kv => pyDictSet d1 kv.1 kv.2) d) k = pyDictGet d k := by
  induction l generalizing d with
  | nil => rfl
  | cons kv t ih =>
    simp only [List.map_cons, List.mem_cons] at h
    push_neg at h
    simp only [List.foldl_cons]
    rw [ih _ h.2, pyDictGet_set_ne _ _ _ _ h.1]

theorem pyDictFold_get_isSome {α β : Type} [DecidableEq α] (l : List (α × β))
    (d : List (α × β)) (k : α) :
    (pyDictGet (l.foldl (fun d1 kv => pyDictSet d1 kv.1 kv.2) d) k).isSome ↔
      k ∈ l.map Prod.fst ∨ (pyDictGet d k).isSome := by
  induction l generalizing d with
  | nil => simp
  | cons kv t ih =>
    simp only [List.foldl_cons, List.map_cons, List.mem_cons]
    rw [ih, pyDictGet_set_isSome]
    tauto

theorem pyDictFold_get_mem {α β : Type} [DecidableEq α] (l : List (α × β))
    (d : List (α × β)) (k : α) (v : β)
    (h : pyDictGet (l.foldl (fun d1 kv => pyDictSet d1 kv.1 kv.2) d) k = some v) :
    (k, v) ∈ l ∨ pyDictGet d k = some v := by
  induction l generalizing d with
  | nil => exact Or.inr h
  | cons kv t ih =>
    simp only [List.foldl_cons] at h
    rcases ih _ h with h1 | h1
    · exact Or.inl (List.mem_cons_of_mem _ h1)
    · by_cases h2 : k = kv.1
      · subst h2
        rw [pyDictGet_set_self] at h1
        obtain rfl : kv.2 = v := by injection h1
        exact Or.inl (List.mem_cons_self _ _)
      · rw [pyDictGet_set_ne _ _ _ _ h2] at h1
        exact Or.inr h1

theorem pyDictFold_get_nodup {α β : Type} [DecidableEq α] (l : List (α × β))
    (d : List (α × β)) (k : α) (v : β) (hn : (l.map Prod.fst).Nodup) (hm : (k, v) ∈ l) :
    pyDictGet (l.foldl (fun d1 kv => pyDictSet d1 kv.1 kv.2) d) k = some v := by
  induction l generalizing d with
  | nil => cases hm
  | cons kv t ih =>
    simp only [List.map_cons, List.nodup_cons] at hn
    rcases List.mem_cons.mp hm with h1 | h1
    · subst h1
      simp only [List.foldl_cons]
      have hk : (k : α) ∉ t.map Prod.fst := hn.1
      rw [pyDictFold_get_not_mem _ _ _ hk, pyDictGet_set_self]
    · simp only [List.foldl_cons]
      exact ih _ hn.2 h1

theorem pyDictGet_ofList_isSome {α β : Type} [DecidableEq α] (l : List (α × β)) (k : α) :
    (pyDictGet (pyDictOfList l) k).isSome ↔ k ∈ l.map Prod.fst := by
  unfold pyDictOfList
  rw [pyDictFold_get_isSome]
  simp [pyDictGet_nil]

theorem pyDictGet_ofList_mem {α β : Type} [DecidableEq α] (l : List (α × β)) (k : α) (v : β)
    (h : pyDictGet (pyDictOfList l) k = some v) : (k, v) ∈ l := by
  unfold pyDictOfList at h
  rcases pyDictFold_get_mem _ _ _ _ h with h1 | h1
  · exact h1
  · simp [pyDictGet_nil] at h1

theorem pyDictGet_ofList_nodup {α β : Type} [DecidableEq α] (l : List (α × β)) (k : α) (v : β)
    (hn : (l.map Prod.fst).Nodup) (hm : (k, v) ∈ l) :
    pyDictGet (pyDictOfList l) k = some v :=
  pyDictFold_get_nodup l [] k v hn hm

theorem pyDictGet_add_self (d : List (Int × ℚ)) (k : Int) (q x : ℚ)
    (h : pyDictGet d k = some q) :
    pyDictGet (pyDictAdd d k x) k = some (q + x) := by
  unfold pyDictAdd
  rw [h]
  exact pyDictGet_set_self d k (q + x)

theorem pyDictGet_add_ne (d : List (Int × ℚ)) (k : Int) (x : ℚ) (k1 : Int) (h : k1 ≠ k) :
    pyDictGet (pyDictAdd d k x) k1 = pyDictGet d k1 :=
  pyDictGet_set_ne d k _ k1 h

theorem pyDictGet_add_isSome (d : List (Int × ℚ)) (k : Int) (x : ℚ) (k1 : Int) :
    (pyDictGet (pyDictAdd d k x) k1).isSome ↔ k1 = k ∨ (pyDictGet d k1).isSome :=
  pyDictGet_set_isSome d k _ k1

theorem pyDictGet_map_pyInt (d : List (Int × ℚ)) (k : Int) :
    pyDictGet (d.map fun kv => (kv.1, pyInt kv.2)) k = (pyDictGet d k).map pyInt := by
  induction d with
  | nil => rfl
  | cons kv t ih =>
    by_cases h : kv.1 = k
    · simp [pyDictGet, h]
    · simp [pyDictGet, h, ih]

/-! Helper lemmas about the shared page loop. -/

theorem receiptScan_error_head {α : Type} (step : List Receipt → α → α)
    (rest : List PageResp) (pageNo : Nat) (acc : α) :
    receiptScan step (Except.error () :: rest) pageNo acc = acc := rfl

theorem receiptScan_stops_at_error {α : Type} (step : List Receipt → α → α)
    (good : List ReceiptsPage) :
    ∀ (rest : List PageResp) (pageNo : Nat) (acc : α),
      scanAdvancesB good pageNo = true →
      receiptScan step (good.map Except.ok ++ Except.error () :: rest) pageNo acc =
        receiptScan step (good.map Except.ok) pageNo acc := by
  induction good with
  | nil =>
    intro rest pageNo acc _
    rfl
  | cons pg t ih =>
    intro rest pageNo acc h
    simp only [scanAdvancesB, Bool.and_eq_true, Bool.not_eq_true', decide_eq_true_eq] at h
    obtain ⟨⟨h1, h2⟩, h3⟩ := h
    have h4 : ¬ pg.pagesTotal ≤ pageNo := Nat.not_le.mpr h2
    simp only [List.map_cons, List.cons_append, receiptScan, h1, h4, if_false]
    simp only [Bool.false_eq_true, if_false, List.append_eq]
    exact ih rest (pageNo + 1) (step pg.results acc) h3

theorem receiptScan_mapPages {α : Type} (f : Receipt → Receipt) (step : List Receipt → α → α)
    (hstep : ∀ (rs : List Receipt) (acc : α), step (rs.map f) acc = step rs acc) :
    ∀ (pages : List PageResp) (pageNo : Nat) (acc : α),
      receiptScan step (mapPages f pages) pageNo acc = receiptScan step pages pageNo acc := by
  intro pages
  induction pages with
  | nil =>
    intro pageNo acc
    rfl
  | cons pr rest ih =>
    intro pageNo acc
    simp only [mapPages] at ih ⊢
    cases pr with
    | error e => rfl
    | ok pg =>
      simp only [List.map_cons, Except.map]
      cases hres : pg.results with
      | nil => simp [receiptScan, hres]
      | cons r rs =>
        have hs : step (f r :: List.map f rs) acc = step (r :: rs) acc := by
          simpa using hstep (r :: rs) acc
        simp only [receiptScan, hres, List.map_cons, List.isEmpty_cons, Bool.false_eq_true,
          if_false, hs]
        by_cases h3 : pg.pagesTotal ≤ pageNo
        · simp [h3]
        · simp [h3, ih]

theorem foldl_filter_of_noop {α β : Type} (p : α → Bool) (g : β → α → β)
    (h : ∀ (b : β) (a : α), p a = false → g b a = b) :
    ∀ (l : List α) (b : β), (l.filter p).foldl g b = l.foldl g b := by
  intro l
  induction l with
  | nil =>
    intro b
    rfl
  | cons a t ih =>
    intro b
    by_cases hp : p a = true
    · simp [List.filter_cons, hp, ih]
    · have hp2 : p a = false := by
        cases h5 : p a
        · rfl
        · exact absurd h5 hp
      simp [List.filter_cons, hp2, ih, h b a hp2]

/-! General facts used by the claim theorems. -/

theorem pyInt_eq_floor (q : ℚ) : pyInt q = if 0 ≤ q then ⌊q⌋ else -⌊-q⌋ := by
  unfold pyInt
  by_cases h : 0 ≤ q
  · simp [h]
  · simp [h, Int.floor_neg]

theorem decQuantizeInt_eq_roundHalfEven (q : ℚ) : decQuantizeInt q = roundHalfEven q := by
  have hfr : Int.fract q = q - (⌊q⌋ : ℚ) := (Int.self_sub_floor q).symm
  have hA : (q - (⌊q⌋ : ℚ) < ((⌊q⌋ : ℚ) + 1) - q) ↔ (Int.fract q < 1 / 2) := by
    rw [hfr]
    constructor <;> intro h <;> linarith
  have hB : (((⌊q⌋ : ℚ) + 1) - q < q - (⌊q⌋ : ℚ)) ↔ (1 / 2 < Int.fract q) := by
    rw [hfr]
    constructor <;> intro h <;> linarith
  unfold decQuantizeInt roundHalfEven
  simp only [hA, hB]

/-! Claim C6.  The claim states the monthly-need metric equals
max(1, round(total / days * 30)) with round-half-up (2.5 rounding to
3).  The code quantizes under the Decimal default context, whose
rounding mode is ROUND_HALF_EVEN, so exact halves round to the even
neighbour; the claim fails on any scaled value of the form
even + 1/2. -/

/-- Claim C6 counterexample: with total_quantity 0.3 over a 2-day
window the scaled value is exactly 4.5; calculate_monthly_needed
(quantize under ROUND_HALF_EVEN) yields 4 while the claimed
round-half-up formula yields 5.  Every intermediate Decimal value
(0.3, 0.15, 4.50) is exact within the 28-digit context, so the code
computes exactly this. -/
theorem c6_counterexample :
    calculate_monthly_needed (3 / 10) 2 = 4 ∧ spec_monthly_needed (3 / 10) 2 = 5 := by
  constructor
  · norm_num [calculate_monthly_needed, decQuantizeInt, Int.even_iff]
  · norm_num [spec_monthly_needed]

/-- Claim C6, amended: the derived monthly-need metric equals
max(1, round_half_even(total_quantity_in_window / window_days * 30)),
the rounding of the scaled decimal being round-half-to-even (the
Decimal default context mode), so a scaled value of exactly 2.5 yields
2 and 4.5 yields 4. -/
theorem c6_amended_monthly_needed_half_even (total_quantity : ℚ) (days : ℕ)
    (hdays : 0 < days) :
    calculate_monthly_needed total_quantity days =
      spec_monthly_needed_half_even total_quantity days := by
  unfold calculate_monthly_needed spec_monthly_needed_half_even
  simp only [decQuantizeInt_eq_roundHalfEven]

/-- Witness for the amended claim C6 at total_quantity 0.3, days 2. -/
theorem c6_witness :
    0 < 2 ∧
      calculate_monthly_needed (3 / 10) 2 = spec_monthly_needed_half_even (3 / 10) 2 :=
  ⟨by norm_num, c6_amended_monthly_needed_half_even (3 / 10) 2 (by norm_num)⟩

/-! Claim C7.  The floor of one unit: any pair with positive sales in
the window gets monthly_needed at least 1, by the final
max(1, monthly_qty). -/

/-- Claim C7: for every (product, store) pair with positive
total_quantity in an observed window of at least one day, the computed
monthly_needed is at least 1, even when the extrapolated average
rounds to 0. -/
theorem c7_monthly_needed_floor (total_quantity : ℚ) (days : ℕ)
    (htotal : 0 < total_quantity) (hdays : 0 < days) :
    1 ≤ calculate_monthly_needed total_quantity days := by
  unfold calculate_monthly_needed
  exact le_max_left _ _

/-- Witness for claim C7 at total_quantity 0.01 over 30 days, where
the extrapolated average 0.01 rounds to 0 yet the result is 1. -/
theorem c7_witness :
    (0 : ℚ) < 1 / 100 ∧ 0 < 30 ∧ 1 ≤ calculate_monthly_needed (1 / 100) 30 :=
  ⟨by norm_num, by norm_num, c7_monthly_needed_floor (1 / 100) 30 (by norm_num) (by norm_num)⟩

/-! Claim C2.  The claim states a mid-scan page failure propagates, so
callers receive a complete aggregate or an explicit failure.  In the
code every scan loop catches the exception, logs it and breaks,
returning the partial running aggregate as an ordinary value. -/

/-- Claim C2 counterexample: with a two-page window whose second page
request fails, calculate_monthly_sales returns 5 — the partial total of
the first page — as an ordinary value, while the complete aggregate
over the same window is 14.  The caller receives a silently truncated
total, neither a complete aggregate nor a failure. -/
theorem c2_counterexample :
    calculate_monthly_sales "P" "S" [Except.ok samplePage, Except.error ()] = 5 ∧
      calculate_monthly_sales "P" "S"
        [Except.ok samplePage, Except.ok ⟨[⟨false, false, some "S", [⟨some "P", 9⟩]⟩], 2⟩] =
        14 := by
  constructor <;>
    norm_num [calculate_monthly_sales, samplePage, receiptScan, singlePageStep,
      singleReceiptStep, pyInt_eq_floor]

/-- Claim C2, amended: a page-request failure aborts the current scan
loop of every aggregation entry point; the error is logged and the
aggregator returns the totals accumulated over the pages before the
failure as an ordinary value, so the failure does not propagate and a
caller can receive a silently truncated partial aggregate. -/
theorem c2_amended_partial_on_failure (productId storeId : String)
    (stores : List (Int × String)) (good : List ReceiptsPage) (rest : List PageResp)
    (h : scanAdvancesB good 1 = true) :
    calculate_monthly_sales productId storeId (good.map Except.ok ++ Except.error () :: rest) =
        calculate_monthly_sales productId storeId (good.map Except.ok) ∧
      calculate_monthly_sales_bulk productId stores
          (good.map Except.ok ++ Except.error () :: rest) =
        calculate_monthly_sales_bulk productId stores (good.map Except.ok) ∧
      fetch_and_aggregate_sales (good.map Except.ok ++ Except.error () :: rest) =
        fetch_and_aggregate_sales (good.map Except.ok) ∧
      sync_all_aggregate_sales (good.map Except.ok ++ Except.error () :: rest) =
        sync_all_aggregate_sales (good.map Except.ok) := by
  refine ⟨?_, ?_, ?_, ?_⟩
  · unfold calculate_monthly_sales
    rw [receiptScan_stops_at_error _ _ _ _ _ h]
  · unfold calculate_monthly_sales_bulk
    rw [receiptScan_stops_at_error _ _ _ _ _ h]
  · unfold fetch_and_aggregate_sales
    rw [receiptScan_stops_at_error _ _ _ _ _ h]
  · unfold sync_all_aggregate_sales
    rw [receiptScan_stops_at_error _ _ _ _ _ h]

/-- Witness for the amended claim C2: one good page followed by a
failing page request. -/
theorem c2_witness :
    scanAdvancesB [samplePage] 1 = true ∧
      (calculate_monthly_sales "P" "S" ([samplePage].map Except.ok ++ Except.error () :: []) =
          calculate_monthly_sales "P" "S" ([samplePage].map Except.ok) ∧
        calculate_monthly_sales_bulk "P" [(1, "A")]
            ([samplePage].map Except.ok ++ Except.error () :: []) =
          calculate_monthly_sales_bulk "P" [(1, "A")] ([samplePage].map Except.ok) ∧
        fetch_and_aggregate_sales ([samplePage].map Except.ok ++ Except.error () :: []) =
          fetch_and_aggregate_sales ([samplePage].map Except.ok) ∧
        sync_all_aggregate_sales ([samplePage].map Except.ok ++ Except.error () :: []) =
          sync_all_aggregate_sales ([samplePage].map Except.ok)) :=
  ⟨by rfl, c2_amended_partial_on_failure "P" "S" [(1, "A")] [samplePage] [] (by rfl)⟩

/-! Per-receipt invariance lemmas for the exclusion claims. -/

theorem fullScanReceiptStep_dropNonpos (m : SalesMap) (r : Receipt) :
    fullScanReceiptStep m (dropNonposItems r) = fullScanReceiptStep m r := by
  unfold fullScanReceiptStep dropNonposItems
  by_cases hv : (r.voided || r.cancelled) = true
  · simp [hv]
  · simp only [Bool.not_eq_true] at hv
    simp only [hv, Bool.false_eq_true, if_false]
    cases ho : r.orgUnitId with
    | none => rfl
    | some s =>
      by_cases hs : s = ""
      · simp [hs]
      · simp only [hs, if_false]
        apply foldl_filter_of_noop
        intro b it hit
        simp only [decide_eq_false_iff_not] at hit
        cases hp : it.productId with
        | none => rfl
        | some p => simp [hit]

theorem allScanReceiptStep_dropNonpos (m : SalesMap) (r : Receipt) :
    allScanReceiptStep m (dropNonposItems r) = allScanReceiptStep m r := by
  unfold allScanReceiptStep dropNonposItems
  by_cases hv : (r.voided || r.cancelled) = true
  · simp [hv]
  · simp only [Bool.not_eq_true] at hv
    simp only [hv, Bool.false_eq_true, if_false]
    cases ho : r.orgUnitId with
    | none => rfl
    | some s =>
      by_cases hs : s = ""
      · simp [hs]
      · simp only [hs, if_false]
        apply foldl_filter_of_noop
        intro b it hit
        simp only [decide_eq_false_iff_not] at hit
        cases hp : it.productId with
        | none => rfl
        | some p => simp [hit]

theorem singleReceiptStep_wipeVoided (productId storeId : String) (acc : ℚ) (r : Receipt) :
    singleReceiptStep productId storeId acc (wipeVoided r) =
      singleReceiptStep productId storeId acc r := by
  unfold singleReceiptStep wipeVoided
  by_cases hv : (r.voided || r.cancelled) = true
  · simp [hv]
  · simp [hv]

theorem bulkReceiptStep_wipeVoided (productId : String) (sm : List (String × Int))
    (acc : List (Int × ℚ)) (r : Receipt) :
    bulkReceiptStep productId sm acc (wipeVoided r) = bulkReceiptStep productId sm acc r := by
  unfold bulkReceiptStep wipeVoided
  by_cases hv : (r.voided || r.cancelled) = true
  · simp [hv]
  · simp [hv]

theorem fullScanReceiptStep_wipeVoided (m : SalesMap) (r : Receipt) :
    fullScanReceiptStep m (wipeVoided r) = fullScanReceiptStep m r := by
  unfold fullScanReceiptStep wipeVoided
  by_cases hv : (r.voided || r.cancelled) = true
  · simp [hv]
  · simp [hv]

theorem allScanReceiptStep_wipeVoided (m : SalesMap) (r : Receipt) :
    allScanReceiptStep m (wipeVoided r) = allScanReceiptStep m r := by
  unfold allScanReceiptStep wipeVoided
  by_cases hv : (r.voided || r.cancelled) = true
  · simp [hv]
  · simp [hv]

/-! Claim C4.  Voided or cancelled receipts are skipped before their
items are read in all four aggregation entry points, so their line
items contribute nothing: emptying the item list of every voided or
cancelled receipt leaves every aggregate unchanged. -/

/-- Claim C4: for every receipt flagged voided or cancelled, no line
item of that receipt contributes to any (store, product) aggregate of
any aggregation entry point — erasing the line items of all voided or
cancelled receipts leaves the single-store, bulk, and both full-scan
aggregates unchanged, for every page stream. -/
theorem c4_voided_receipts_excluded (productId storeId : String)
    (stores : List (Int × String)) (pages : List PageResp) :
    calculate_monthly_sales productId storeId (mapPages wipeVoided pages) =
        calculate_monthly_sales productId storeId pages ∧
      calculate_monthly_sales_bulk productId stores (mapPages wipeVoided pages) =
        calculate_monthly_sales_bulk productId stores pages ∧
      fetch_and_aggregate_sales (mapPages wipeVoided pages) = fetch_and_aggregate_sales pages ∧
      sync_all_aggregate_sales (mapPages wipeVoided pages) = sync_all_aggregate_sales pages := by
  refine ⟨?_, ?_, ?_, ?_⟩
  · unfold calculate_monthly_sales
    rw [receiptScan_mapPages]
    intro rs acc
    unfold singlePageStep
    rw [List.foldl_map]
    have hf : (fun (a : ℚ) (r : Receipt) => singleReceiptStep productId storeId a (wipeVoided r)) =
        singleReceiptStep productId storeId := by
      funext a r
      exact singleReceiptStep_wipeVoided productId storeId a r
    rw [hf]
  · unfold calculate_monthly_sales_bulk
    rw [receiptScan_mapPages]
    intro rs acc
    unfold bulkPageStep
    rw [List.foldl_map]
    have hf : (fun (a : List (Int × ℚ)) (r : Receipt) =>
          bulkReceiptStep productId (storeMap stores) a (wipeVoided r)) =
        bulkReceiptStep productId (storeMap stores) := by
      funext a r
      exact bulkReceiptStep_wipeVoided productId (storeMap stores) a r
    rw [hf]
  · unfold fetch_and_aggregate_sales
    rw [receiptScan_mapPages]
    intro rs acc
    rw [List.foldl_map]
    have hf : (fun (a : SalesMap) (r : Receipt) => fullScanReceiptStep a (wipeVoided r)) =
        fullScanReceiptStep := by
      funext a r
      exact fullScanReceiptStep_wipeVoided a r
    rw [hf]
  · unfold sync_all_aggregate_sales
    rw [receiptScan_mapPages]
    intro rs acc
    rw [List.foldl_map]
    have hf : (fun (a : SalesMap) (r : Receipt) => allScanReceiptStep a (wipeVoided r)) =
        allScanReceiptStep := by
      funext a r
      exact allScanReceiptStep_wipeVoided a r
    rw [hf]

/-! Claim C1.  The claim states every aggregation entry point excludes
line items with quantity at most 0.  Only the two full-scan commands
test `quantity > 0`; korona.py's single-store and bulk aggregators add
every matching line item quantity, negative or zero included. -/

/-- Claim C1 counterexample: a single receipt at the requested store
holding one line item of the requested product with quantity -2 (a
return).  calculate_monthly_sales returns -2 where the claim requires
the line item to contribute nothing: removing the item changes the
result to 0, so the non-positive line item did contribute. -/
theorem c1_counterexample :
    calculate_monthly_sales "P" "S"
        [Except.ok ⟨[⟨false, false, some "S", [⟨some "P", -2⟩]⟩], 1⟩] = -2 ∧
      calculate_monthly_sales "P" "S" [Except.ok ⟨[⟨false, false, some "S", []⟩], 1⟩] = 0 := by
  constructor <;>
    norm_num [calculate_monthly_sales, receiptScan, singlePageStep, singleReceiptStep,
      pyInt_eq_floor]

/-- Claim C1, amended: only the all-products/all-stores full-scan
entry points exclude line items with quantity at most 0 from the
(store, product) totals — removing all non-positive-quantity items
leaves both full-scan aggregates unchanged for every date window —
while the single-store and bulk aggregators add every matching line
item quantity, zero or negative included. -/
theorem c1_amended_positive_filter_full_scan_only :
    (∀ pages : List PageResp,
        fetch_and_aggregate_sales (mapPages dropNonposItems pages) =
          fetch_and_aggregate_sales pages) ∧
      (∀ pages : List PageResp,
        sync_all_aggregate_sales (mapPages dropNonposItems pages) =
          sync_all_aggregate_sales pages) ∧
      (∀ (productId storeId : String) (q : ℚ),
        calculate_monthly_sales productId storeId
            [Except.ok ⟨[⟨false, false, some storeId, [⟨some productId, q⟩]⟩], 1⟩] =
          pyInt q) ∧
      (∀ (productId korId : String) (db : Int) (q : ℚ),
        pyDictGet (calculate_monthly_sales_bulk productId [(db, korId)]
            [Except.ok ⟨[⟨false, false, some korId, [⟨some productId, q⟩]⟩], 1⟩]) db =
          some (pyInt q)) := by
  refine ⟨?_, ?_, ?_, ?_⟩
  · intro pages
    unfold fetch_and_aggregate_sales
    rw [receiptScan_mapPages]
    intro rs acc
    rw [List.foldl_map]
    have hf : (fun (a : SalesMap) (r : Receipt) => fullScanReceiptStep a (dropNonposItems r)) =
        fullScanReceiptStep := by
      funext a r
      exact fullScanReceiptStep_dropNonpos a r
    rw [hf]
  · intro pages
    unfold sync_all_aggregate_sales
    rw [receiptScan_mapPages]
    intro rs acc
    rw [List.foldl_map]
    have hf : (fun (a : SalesMap) (r : Receipt) => allScanReceiptStep a (dropNonposItems r)) =
        allScanReceiptStep := by
      funext a r
      exact allScanReceiptStep_dropNonpos a r
    rw [hf]
  · intro productId storeId q
    simp [calculate_monthly_sales, receiptScan, singlePageStep, singleReceiptStep]
  · intro productId korId db q
    simp [calculate_monthly_sales_bulk, receiptScan, bulkPageStep, bulkReceiptStep,
      storeMap, resultsInit, pyDictOfList, pyDictAdd, pyDictGet, pyDictSet]

/-! Lemmas relating the bulk aggregator to the single-store one. -/

theorem nodup_fst_eq {α β : Type} [DecidableEq α] (l : List (α × β))
    (hn : (l.map Prod.fst).Nodup) (a : α) (b c : β)
    (h1 : (a, b) ∈ l) (h2 : (a, c) ∈ l) : b = c := by
  induction l with
  | nil => cases h1
  | cons kv t ih =>
    simp only [List.map_cons, List.nodup_cons] at hn
    rcases List.mem_cons.mp h1 with e1 | m1
    · rcases List.mem_cons.mp h2 with e2 | m2
      · have e3 : (a, b) = (a, c) := e1.trans e2.symm
        injection e3 with _ h4
      · exfalso
        apply hn.1
        have ha : a ∈ t.map Prod.fst := List.mem_map.mpr ⟨(a, c), m2, rfl⟩
        rw [← e1]
        exact ha
    · rcases List.mem_cons.mp h2 with e2 | m2
      · exfalso
        apply hn.1
        have ha : a ∈ t.map Prod.fst := List.mem_map.mpr ⟨(a, b), m1, rfl⟩
        rw [← e2]
        exact ha
      · exact ih hn.2 m1 m2

theorem storeMap_keys (stores : List (Int × String)) :
    (stores.map fun s => (s.2, s.1)).map Prod.fst = stores.map Prod.snd := by
  rw [List.map_map]
  rfl

theorem storeMap_lookup (stores : List (Int × String)) (db : Int) (kor : String)
    (hsnd : (stores.map Prod.snd).Nodup) (hm : (db, kor) ∈ stores) :
    pyDictGet (storeMap stores) kor = some db := by
  unfold storeMap
  apply pyDictGet_ofList_nodup
  · rw [storeMap_keys]
    exact hsnd
  · exact List.mem_map_of_mem _ hm

theorem storeMap_lookup_mem (stores : List (Int × String)) (k : String) (db : Int)
    (h : pyDictGet (storeMap stores) k = some db) : (db, k) ∈ stores := by
  have h2 := pyDictGet_ofList_mem _ _ _ h
  rcases List.mem_map.mp h2 with ⟨s, hs, he⟩
  obtain ⟨a, b⟩ := s
  injection he with h3 h4
  subst h3
  subst h4
  exact hs

theorem resultsInit_lookup (stores : List (Int × String)) (db : Int)
    (h : db ∈ stores.map Prod.fst) :
    pyDictGet (resultsInit stores) db = some 0 := by
  unfold resultsInit
  have hkeys : (stores.map fun s => (s.1, (0 : ℚ))).map Prod.fst = stores.map Prod.fst := by
    rw [List.map_map]
    rfl
  have hs : (pyDictGet (pyDictOfList (stores.map fun s => (s.1, (0 : ℚ)))) db).isSome := by
    rw [pyDictGet_ofList_isSome, hkeys]
    exact h
  cases hv : pyDictGet (pyDictOfList (stores.map fun s => (s.1, (0 : ℚ)))) db with
  | none =>
    rw [hv] at hs
    simp at hs
  | some v =>
    have hm := pyDictGet_ofList_mem _ _ _ hv
    rcases List.mem_map.mp hm with ⟨s, _, he⟩
    injection he with h1 h2
    rw [← h2]

theorem bulk_items_fold (productId : String) (db : Int) (items : List LineItem) :
    ∀ (d : List (Int × ℚ)) (q : ℚ), pyDictGet d db = some q →
      pyDictGet
          (items.foldl
            (fun d1 it => if it.productId = some productId then pyDictAdd d1 db it.quantity else d1)
            d) db =
        some (items.foldl
          (fun t it => if it.productId = some productId then t + it.quantity else t) q) := by
  induction items with
  | nil =>
    intro d q h
    exact h
  | cons it t ih =>
    intro d q h
    simp only [List.foldl_cons]
    by_cases hp : it.productId = some productId
    · rw [if_pos hp, if_pos hp]
      exact ih _ _ (pyDictGet_add_self d db q it.quantity h)
    · rw [if_neg hp, if_neg hp]
      exact ih _ _ h

theorem bulk_items_fold_other (productId : String) (db1 db : Int) (hne : db ≠ db1)
    (items : List LineItem) :
    ∀ d : List (Int × ℚ),
      pyDictGet
          (items.foldl
            (fun d1 it => if it.productId = some productId then pyDictAdd d1 db1 it.quantity else d1)
            d) db =
        pyDictGet d db := by
  induction items with
  | nil =>
    intro d
    rfl
  | cons it t ih =>
    intro d
    simp only [List.foldl_cons]
    by_cases hp : it.productId = some productId
    · rw [if_pos hp, ih, pyDictGet_add_ne _ _ _ _ hne]
    · rw [if_neg hp]
      exact ih d

theorem bulk_receipt_tracks (productId : String) (stores : List (Int × String))
    (hfst : (stores.map Prod.fst).Nodup) (hsnd : (stores.map Prod.snd).Nodup)
    (db : Int) (kor : String) (hm : (db, kor) ∈ stores) (r : Receipt)
    (d : List (Int × ℚ)) (q : ℚ) (h : pyDictGet d db = some q) :
    pyDictGet (bulkReceiptStep productId (storeMap stores) d r) db =
      some (singleReceiptStep productId kor q r) := by
  unfold bulkReceiptStep singleReceiptStep
  by_cases hv : (r.voided || r.cancelled) = true
  · simp [hv, h]
  · simp only [Bool.not_eq_true] at hv
    simp only [hv, Bool.false_eq_true, if_false]
    cases ho : r.orgUnitId with
    | none => simp [h]
    | some k =>
      cases hl : pyDictGet (storeMap stores) k with
      | none =>
        have hk : k ≠ kor := by
          intro he
          subst he
          rw [storeMap_lookup stores db k hsnd hm] at hl
          cases hl
        simp [hl, h, hk]
      | some db1 =>
        by_cases hde : db1 = db
        · subst hde
          have hk : k = kor := by
            have hmem : (db1, k) ∈ stores := storeMap_lookup_mem stores k db1 hl
            exact (nodup_fst_eq stores hfst db1 kor k hm hmem).symm
          subst hk
          simp only [hl]
          rw [if_neg (fun hcon => hcon rfl)]
          exact bulk_items_fold productId db1 r.items d q h
        · have hk : k ≠ kor := by
            intro he
            subst he
            rw [storeMap_lookup stores db k hsnd hm] at hl
            injection hl with h5
            exact hde h5.symm
          have hne : db ≠ db1 := fun h6 => hde h6.symm
          simp only [hl]
          rw [bulk_items_fold_other productId db1 db hne r.items d, h,
            if_pos (fun hcon => hk (Option.some_inj.mp hcon))]

theorem bulk_page_tracks (productId : String) (stores : List (Int × String))
    (hfst : (stores.map Prod.fst).Nodup) (hsnd : (stores.map Prod.snd).Nodup)
    (db : Int) (kor : String) (hm : (db, kor) ∈ stores) (rs : List Receipt) :
    ∀ (d : List (Int × ℚ)) (q : ℚ), pyDictGet d db = some q →
      pyDictGet (bulkPageStep productId (storeMap stores) rs d) db =
        some (singlePageStep productId kor rs q) := by
  induction rs with
  | nil =>
    intro d q h
    exact h
  | cons r t ih =>
    intro d q h
    unfold bulkPageStep singlePageStep
    simp only [List.foldl_cons]
    have h2 := bulk_receipt_tracks productId stores hfst hsnd db kor hm r d q h
    exact ih _ _ h2

theorem bulk_scan_tracks (productId : String) (stores : List (Int × String))
    (hfst : (stores.map Prod.fst).Nodup) (hsnd : (stores.map Prod.snd).Nodup)
    (db : Int) (kor : String) (hm : (db, kor) ∈ stores) (pages : List PageResp) :
    ∀ (pageNo : Nat) (d : List (Int × ℚ)) (q : ℚ), pyDictGet d db = some q →
      pyDictGet (receiptScan (bulkPageStep productId (storeMap stores)) pages pageNo d) db =
        some (receiptScan (singlePageStep productId kor) pages pageNo q) := by
  induction pages with
  | nil =>
    intro pageNo d q h
    exact h
  | cons pr rest ih =>
    intro pageNo d q h
    cases pr with
    | error e => exact h
    | ok pg =>
      by_cases he : pg.results.isEmpty = true
      · simp only [receiptScan, he, if_true]
        exact h
      · simp only [Bool.not_eq_true] at he
        simp only [receiptScan, he, Bool.false_eq_true, if_false]
        have h2 := bulk_page_tracks productId stores hfst hsnd db kor hm pg.results d q h
        by_cases ht : pg.pagesTotal ≤ pageNo
        · simp only [ht, if_true]
          exact h2
        · simp only [ht, if_false]
          exact ih _ _ _ h2

/-! Claim C3.  Bulk equals single per store.  The store list encodes a
set of distinct stores: the data model makes both identifiers unique
across stores (Store.korona_id is a unique column and the local id is
the primary key), expressed by the two Nodup hypotheses. -/

/-- Claim C3: for every product, every set of distinct stores (pairwise
distinct local ids and pairwise distinct korona ids, as the Store
model guarantees), and every receipt stream, the bulk aggregator's
entry for a store equals the single-store aggregator run independently
on the same stream. -/
theorem c3_bulk_equals_single (productId : String) (stores : List (Int × String))
    (pages : List PageResp) (hfst : (stores.map Prod.fst).Nodup)
    (hsnd : (stores.map Prod.snd).Nodup) (db : Int) (kor : String)
    (hm : (db, kor) ∈ stores) :
    pyDictGet (calculate_monthly_sales_bulk productId stores pages) db =
      some (calculate_monthly_sales productId kor pages) := by
  unfold calculate_monthly_sales_bulk calculate_monthly_sales
  rw [pyDictGet_map_pyInt]
  have h0 : pyDictGet (resultsInit stores) db = some 0 :=
    resultsInit_lookup stores db (List.mem_map_of_mem Prod.fst hm)
  rw [bulk_scan_tracks productId stores hfst hsnd db kor hm pages 1 (resultsInit stores) 0 h0]
  rfl

/-- Witness for claim C3: two distinct stores, a receipt at each. -/
theorem c3_witness :
    ((([(1, "A"), (2, "B")] : List (Int × String)).map Prod.fst).Nodup ∧
        (([(1, "A"), (2, "B")] : List (Int × String)).map Prod.snd).Nodup ∧
        ((1 : Int), "A") ∈ ([(1, "A"), (2, "B")] : List (Int × String))) ∧
      pyDictGet (calculate_monthly_sales_bulk "P" [(1, "A"), (2, "B")]
          [Except.ok ⟨[⟨false, false, some "A", [⟨some "P", 5⟩]⟩], 1⟩]) 1 =
        some (calculate_monthly_sales "P" "A"
          [Except.ok ⟨[⟨false, false, some "A", [⟨some "P", 5⟩]⟩], 1⟩]) :=
  ⟨⟨by decide, by decide, by decide⟩,
    c3_bulk_equals_single "P" [(1, "A"), (2, "B")]
      [Except.ok ⟨[⟨false, false, some "A", [⟨some "P", 5⟩]⟩], 1⟩]
      (by decide) (by decide) 1 "A" (by decide)⟩

/-! Lemmas for the key-set property of the bulk aggregator. -/

theorem bulk_items_fold_keys (productId : String) (db : Int) (K : List Int) (hdb : db ∈ K)
    (items : List LineItem) :
    ∀ d : List (Int × ℚ), (∀ k1, (pyDictGet d k1).isSome ↔ k1 ∈ K) →
      ∀ k1,
        (pyDictGet
            (items.foldl
              (fun d1 it =>
                if it.productId = some productId then pyDictAdd d1 db it.quantity else d1)
              d) k1).isSome ↔ k1 ∈ K := by
  induction items with
  | nil =>
    intro d hinv
    exact hinv
  | cons it t ih =>
    intro d hinv
    simp only [List.foldl_cons]
    by_cases hp : it.productId = some productId
    · rw [if_pos hp]
      apply ih
      intro k1
      rw [pyDictGet_add_isSome]
      constructor
      · rintro (rfl | hs)
        · exact hdb
        · exact (hinv k1).mp hs
      · intro hk
        exact Or.inr ((hinv k1).mpr hk)
    · rw [if_neg hp]
      exact ih d hinv

theorem bulk_receipt_keys (productId : String) (stores : List (Int × String)) (r : Receipt)
    (d : List (Int × ℚ)) (hinv : ∀ k1, (pyDictGet d k1).isSome ↔ k1 ∈ stores.map Prod.fst) :
    ∀ k1, (pyDictGet (bulkReceiptStep productId (storeMap stores) d r) k1).isSome ↔
      k1 ∈ stores.map Prod.fst := by
  unfold bulkReceiptStep
  by_cases hv : (r.voided || r.cancelled) = true
  · simp only [hv, if_true]
    exact hinv
  · simp only [Bool.not_eq_true] at hv
    simp only [hv, Bool.false_eq_true, if_false]
    cases ho : r.orgUnitId with
    | none => exact hinv
    | some k =>
      cases hl : pyDictGet (storeMap stores) k with
      | none =>
        simp only [hl]
        exact hinv
      | some db =>
        simp only [hl]
        have hdb : db ∈ stores.map Prod.fst :=
          List.mem_map.mpr ⟨(db, k), storeMap_lookup_mem stores k db hl, rfl⟩
        exact bulk_items_fold_keys productId db _ hdb r.items d hinv

theorem bulk_page_keys (productId : String) (stores : List (Int × String)) (rs : List Receipt) :
    ∀ d : List (Int × ℚ), (∀ k1, (pyDictGet d k1).isSome ↔ k1 ∈ stores.map Prod.fst) →
      ∀ k1, (pyDictGet (bulkPageStep productId (storeMap stores) rs d) k1).isSome ↔
        k1 ∈ stores.map Prod.fst := by
  induction rs with
  | nil =>
    intro d hinv
    exact hinv
  | cons r t ih =>
    intro d hinv
    unfold bulkPageStep
    simp only [List.foldl_cons]
    exact ih _ (bulk_receipt_keys productId stores r d hinv)

theorem bulk_scan_keys (productId : String) (stores : List (Int × String))
    (pages : List PageResp) :
    ∀ (pageNo : Nat) (d : List (Int × ℚ)),
      (∀ k1, (pyDictGet d k1).isSome ↔ k1 ∈ stores.map Prod.fst) →
      ∀ k1,
        (pyDictGet (receiptScan (bulkPageStep productId (storeMap stores)) pages pageNo d)
            k1).isSome ↔ k1 ∈ stores.map Prod.fst := by
  induction pages with
  | nil =>
    intro pageNo d hinv
    exact hinv
  | cons pr rest ih =>
    intro pageNo d hinv
    cases pr with
    | error e => exact hinv
    | ok pg =>
      by_cases he : pg.results.isEmpty = true
      · simp only [receiptScan, he, if_true]
        exact hinv
      · simp only [Bool.not_eq_true] at he
        simp only [receiptScan, he, Bool.false_eq_true, if_false]
        have h2 := bulk_page_keys productId stores pg.results d hinv
        by_cases ht : pg.pagesTotal ≤ pageNo
        · simp only [ht, if_true]
          exact h2
        · simp only [ht, if_false]
          exact ih _ _ h2

theorem resultsInit_keys (stores : List (Int × String)) :
    ∀ k1, (pyDictGet (resultsInit stores) k1).isSome ↔ k1 ∈ stores.map Prod.fst := by
  intro k1
  unfold resultsInit
  rw [pyDictGet_ofList_isSome]
  have hkeys : (stores.map fun s => (s.1, (0 : ℚ))).map Prod.fst = stores.map Prod.fst := by
    rw [List.map_map]
    rfl
  rw [hkeys]

theorem foldl_no_hits (productId : String) (db : Int) (items : List LineItem) :
    items.all (fun it => !decide (it.productId = some productId)) = true →
    ∀ d : List (Int × ℚ),
      items.foldl
          (fun d1 it => if it.productId = some productId then pyDictAdd d1 db it.quantity else d1)
          d = d := by
  induction items with
  | nil =>
    intro _ d
    rfl
  | cons it t ih =>
    intro h d
    simp only [List.all_cons, Bool.and_eq_true] at h
    have h1 : ¬ (it.productId = some productId) := by
      have h2 := h.1
      simp only [Bool.not_eq_true', decide_eq_false_iff_not] at h2
      exact h2
    simp only [List.foldl_cons]
    rw [if_neg h1]
    exact ih h.2 d

theorem bulk_receipt_no_hits (productId : String) (sm : List (String × Int)) (r : Receipt)
    (h : r.items.all (fun it => !decide (it.productId = some productId)) = true)
    (d : List (Int × ℚ)) :
    bulkReceiptStep productId sm d r = d := by
  unfold bulkReceiptStep
  by_cases hv : (r.voided || r.cancelled) = true
  · simp [hv]
  · simp only [Bool.not_eq_true] at hv
    simp only [hv, Bool.false_eq_true, if_false]
    cases ho : r.orgUnitId with
    | none => rfl
    | some k =>
      cases hl : pyDictGet sm k with
      | none => simp only [hl]
      | some db =>
        simp only [hl]
        exact foldl_no_hits productId db r.items h d

theorem bulk_page_no_hits (productId : String) (sm : List (String × Int)) (rs : List Receipt) :
    rs.all (fun r => r.items.all fun it => !decide (it.productId = some productId)) = true →
    ∀ d : List (Int × ℚ), bulkPageStep productId sm rs d = d := by
  induction rs with
  | nil =>
    intro _ d
    rfl
  | cons r t ih =>
    intro h d
    simp only [List.all_cons, Bool.and_eq_true] at h
    unfold bulkPageStep
    simp only [List.foldl_cons]
    rw [bulk_receipt_no_hits productId sm r h.1 d]
    exact ih h.2 d

theorem bulk_scan_no_hits (productId : String) (sm : List (String × Int))
    (pages : List PageResp) :
    noProductHits productId pages = true →
    ∀ (pageNo : Nat) (d : List (Int × ℚ)),
      receiptScan (bulkPageStep productId sm) pages pageNo d = d := by
  induction pages with
  | nil =>
    intro _ pageNo d
    rfl
  | cons pr rest ih =>
    intro h pageNo d
    simp only [noProductHits, List.all_cons, Bool.and_eq_true] at h
    cases pr with
    | error e => rfl
    | ok pg =>
      have h1 : pg.results.all (fun r => r.items.all fun it =>
          !decide (it.productId = some productId)) = true := h.1
      have h2 : noProductHits productId rest = true := by
        unfold noProductHits
        exact h.2
      by_cases he : pg.results.isEmpty = true
      · simp only [receiptScan, he, if_true]
      · simp only [Bool.not_eq_true] at he
        simp only [receiptScan, he, Bool.false_eq_true, if_false]
        rw [bulk_page_no_hits productId sm pg.results h1 d]
        by_cases ht : pg.pagesTotal ≤ pageNo
        · simp only [ht, if_true]
        · simp only [ht, if_false]
          exact ih h2 _ d

/-! Claim C10.  The key set of the bulk result. -/

/-- Claim C10: calculate_monthly_sales_bulk returns a mapping whose key
set is exactly the set of requested local store ids — every requested
store id is a key and no other key appears — and a requested store for
which the page stream holds no line item of the product keeps the
integer value 0. -/
theorem c10_bulk_key_set (productId : String) (stores : List (Int × String))
    (pages : List PageResp) :
    (∀ k : Int,
        (pyDictGet (calculate_monthly_sales_bulk productId stores pages) k).isSome ↔
          k ∈ stores.map Prod.fst) ∧
      (noProductHits productId pages = true →
        ∀ db ∈ stores.map Prod.fst,
          pyDictGet (calculate_monthly_sales_bulk productId stores pages) db = some 0) := by
  constructor
  · intro k
    unfold calculate_monthly_sales_bulk
    rw [pyDictGet_map_pyInt]
    have hmap : ∀ o : Option ℚ, (o.map pyInt).isSome = o.isSome := by
      intro o
      cases o <;> rfl
    rw [hmap]
    exact bulk_scan_keys productId stores pages 1 (resultsInit stores)
      (resultsInit_keys stores) k
  · intro hnp db hdb
    unfold calculate_monthly_sales_bulk
    rw [pyDictGet_map_pyInt, bulk_scan_no_hits productId (storeMap stores) pages hnp 1,
      resultsInit_lookup stores db hdb]
    simp [pyInt]

/-- Witness for claim C10: one requested store, one page whose only
line item is for a different product; the key set holds exactly the
requested id with value 0. -/
theorem c10_witness :
    (noProductHits "P" [Except.ok ⟨[⟨false, false, some "A", [⟨some "Q", 5⟩]⟩], 1⟩] = true ∧
        (1 : Int) ∈ ([(1, "A")] : List (Int × String)).map Prod.fst) ∧
      pyDictGet (calculate_monthly_sales_bulk "P" [(1, "A")]
          [Except.ok ⟨[⟨false, false, some "A", [⟨some "Q", 5⟩]⟩], 1⟩]) 1 = some 0 :=
  ⟨⟨by decide, by decide⟩,
    (c10_bulk_key_set "P" [(1, "A")]
        [Except.ok ⟨[⟨false, false, some "A", [⟨some "Q", 5⟩]⟩], 1⟩]).2 (by decide) 1 (by decide)⟩

/-! Claim C9.  Stock-sync pruning.  The prune query of
sync_stocks.Command.handle runs only when seen_store_ids is non-empty,
so a response in which no entry resolves to a known local store leaves
pre-existing rows in place, and entries for stores unknown locally
produce no row; the claimed equality with the full reported store set
fails. -/

/-- Claim C9 counterexample: a successful stock response with an empty
results list (no stores reported).  The claim requires the ProductStock
row set to become empty; the code skips the prune because no entry
resolved, and the pre-existing row for store OLD survives. -/
theorem c9_counterexample :
    sync_stock_product ["S1"] (some []) ({"OLD"} : Finset String) = {"OLD"} ∧
      seenStoreIds ["S1"] [] = [] := by
  constructor
  · decide
  · rfl

/-- Claim C9, amended: after a stock-sync pass for a product in which
at least one reported entry resolves to a known local store, the set of
ProductStock rows for the product equals exactly the set of reported
stores that resolve to known local stores (rows for stores absent from
that set are deleted, in the same transaction as the upserts); when no
entry resolves, the prune is skipped and pre-existing rows survive; a
204 empty payload deletes every row of the product. -/
theorem c9_amended_prune (knownStores : List String) (entries : List StockEntry)
    (rows : Finset String) (h : seenStoreIds knownStores entries ≠ []) :
    (∀ w, w ∈ sync_stock_product knownStores (some entries) rows ↔
        w ∈ seenStoreIds knownStores entries) ∧
      sync_stock_product knownStores none rows = ∅ := by
  constructor
  · intro w
    unfold sync_stock_product
    have hne : (seenStoreIds knownStores entries).isEmpty = false := by
      cases hcase : seenStoreIds knownStores entries
      · exact absurd hcase h
      · rfl
    simp only [hne, Bool.false_eq_true, if_false]
    rw [Finset.mem_filter]
    constructor
    · intro hw
      exact hw.2
    · intro hw
      exact ⟨Finset.mem_union_right _ (List.mem_toFinset.mpr hw), hw⟩
  · rfl

/-- Witness for the amended claim C9: one reported entry resolving to
the known store S1, pruning away the pre-existing row OLD. -/
theorem c9_witness :
    seenStoreIds ["S1"] [⟨some "S1"⟩] ≠ [] ∧
      ((∀ w, w ∈ sync_stock_product ["S1"] (some [⟨some "S1"⟩]) ({"OLD"} : Finset String) ↔
          w ∈ seenStoreIds ["S1"] [⟨some "S1"⟩]) ∧
        sync_stock_product ["S1"] none ({"OLD"} : Finset String) = ∅) :=
  ⟨by decide, c9_amended_prune ["S1"] [⟨some "S1"⟩] {"OLD"} (by decide)⟩

/-! Lemmas about the monthly-sales query pipeline. -/

theorem api_needing_mem (st : SalesState) (force : Bool) (l : List Int) (s : Int) :
    s ∈ (l.map fun t => (t, tierLookup st force t)).filterMap
        (fun x => match x.2 with
          | TierOutcome.needs => some x.1
          | TierOutcome.cached _ => none) ↔
      s ∈ l ∧ tierLookup st force s = TierOutcome.needs := by
  rw [List.filterMap_map]
  constructor
  · intro hs
    rcases List.mem_filterMap.mp hs with ⟨a, ha, hg⟩
    simp only [Function.comp] at hg
    cases ht : tierLookup st force a with
    | cached q =>
      rw [ht] at hg
      exact Option.noConfusion hg
    | needs =>
      rw [ht] at hg
      injection hg with he
      subst he
      exact ⟨ha, ht⟩
  · rintro ⟨hs, ht⟩
    apply List.mem_filterMap.mpr
    refine ⟨s, hs, ?_⟩
    simp only [Function.comp]
    rw [ht]

theorem api_cached_not_key (st : SalesState) (force : Bool) (l : List Int) (s : Int)
    (hneeds : tierLookup st force s = TierOutcome.needs) :
    s ∉ ((l.map fun t => (t, tierLookup st force t)).filterMap
        (fun x => match x.2 with
          | TierOutcome.cached q => some (x.1, q)
          | TierOutcome.needs => none)).map Prod.fst := by
  intro hs
  rcases List.mem_map.mp hs with ⟨p, hp, hfst⟩
  rw [List.filterMap_map] at hp
  rcases List.mem_filterMap.mp hp with ⟨a, ha, hg⟩
  simp only [Function.comp] at hg
  cases ht : tierLookup st force a with
  | needs =>
    rw [ht] at hg
    exact Option.noConfusion hg
  | cached q =>
    rw [ht] at hg
    injection hg with he
    subst he
    have ha2 : a = s := hfst
    subst ha2
    rw [hneeds] at ht
    exact TierOutcome.noConfusion ht

theorem api_fallback_key_mem (st : SalesState) (l : List Int) (x : Int) (v : ℤ)
    (h : (x, v) ∈ l.filterMap fun t => (st.dbRow t).map fun row => (t, row.quantity_sold)) :
    x ∈ l ∧ ∃ row, st.dbRow x = some row ∧ row.quantity_sold = v := by
  rcases List.mem_filterMap.mp h with ⟨a, ha, hg⟩
  cases hrow : st.dbRow a with
  | none =>
    rw [hrow] at hg
    exact Option.noConfusion hg
  | some row =>
    rw [hrow] at hg
    simp only [Option.map_some'] at hg
    injection hg with he
    injection he with he1 he2
    subst he1
    exact ⟨ha, row, hrow, he2⟩

theorem api_fallback_keys_sub (st : SalesState) (l : List Int) (x : Int)
    (h : x ∈ (l.filterMap fun t =>
        (st.dbRow t).map fun row => (t, row.quantity_sold)).map Prod.fst) :
    x ∈ l ∧ (st.dbRow x).isSome := by
  rcases List.mem_map.mp h with ⟨p, hp, hfst⟩
  obtain ⟨px, pv⟩ := p
  have h2 := api_fallback_key_mem st l px pv hp
  have hx : px = x := hfst
  subst hx
  rcases h2 with ⟨h3, row, h4, _⟩
  exact ⟨h3, by rw [h4]; rfl⟩

theorem api_fallback_keys_nodup (st : SalesState) (l : List Int) (h : l.Nodup) :
    ((l.filterMap fun t => (st.dbRow t).map fun row => (t, row.quantity_sold)).map
      Prod.fst).Nodup := by
  induction l with
  | nil => simp
  | cons a t ih =>
    rw [List.nodup_cons] at h
    rw [List.filterMap_cons]
    cases hrow : st.dbRow a with
    | none =>
      simp only [hrow, Option.map_none']
      exact ih h.2
    | some row =>
      simp only [hrow, Option.map_some']
      rw [List.map_cons, List.nodup_cons]
      refine ⟨?_, ih h.2⟩
      intro hmem
      exact h.1 (api_fallback_keys_sub st t a hmem).1

theorem api_needing_nodup (st : SalesState) (force : Bool) (l : List Int) (h : l.Nodup) :
    ((l.map fun t => (t, tierLookup st force t)).filterMap
      (fun x => match x.2 with
        | TierOutcome.needs => some x.1
        | TierOutcome.cached _ => none)).Nodup := by
  induction l with
  | nil => simp
  | cons a t ih =>
    rw [List.nodup_cons] at h
    rw [List.map_cons, List.filterMap_cons]
    cases ht : tierLookup st force a with
    | cached q =>
      simp only [ht]
      exact ih h.2
    | needs =>
      simp only [ht]
      rw [List.nodup_cons]
      refine ⟨?_, ih h.2⟩
      intro hmem
      exact h.1 ((api_needing_mem st force t a).mp hmem).1

/-! Claim C8.  Failure fallback of the monthly-sales query.  The claim
quantifies over every requested pair with a persisted row; but a pair
served from the fast (Redis) tier keeps the Redis value even when a
differing persisted row exists, and a fast-tier pair without any
persisted row is present rather than omitted.  The fallback described
by the claim applies exactly to the pairs that reached the live
computation. -/

/-- Claim C8 counterexample: with Redis hits 7 and 9 for stores 1 and
2, stale persisted rows 5 and 3 for stores 1 and 3, and the bulk
computation raising, the response is 1 mapped to 7, 2 mapped to 9, 3
mapped to 3: store 1 has a persisted row of 5 yet receives 7, and
store 2 has no persisted row yet is present rather than omitted.  The
bulk computation genuinely ran (store 3 needed it) and raised. -/
theorem c8_counterexample :
    monthly_sales_api c8state false [1, 2, 3] (Except.error ()) = [(1, 7), (2, 9), (3, 3)] ∧
      pyDictGet (monthly_sales_api c8state false [1, 2, 3] (Except.error ())) 1 ≠ some 5 ∧
      pyDictGet (monthly_sales_api c8state false [1, 2, 3] (Except.error ())) 2 ≠ none := by
  refine ⟨?_, ?_, ?_⟩ <;> decide

/-- Claim C8, amended: when the live bulk computation raises, every
requested store that reached the live computation (no fast-tier hit
and no fresh persisted row, or force refresh) receives its persisted
MonthlySales quantity when a row exists — even one older than the
staleness threshold — and is omitted from the result when no row
exists; requested stores served from a cache tier keep the tier value.
The degraded fallback is also logged (a side effect outside the
model). -/
theorem c8_amended_stale_fallback (st : SalesState) (force : Bool) (storesList : List Int)
    (s : Int) (hnd : storesList.Nodup) (hmem : s ∈ storesList)
    (hneeds : tierLookup st force s = TierOutcome.needs) :
    pyDictGet (monthly_sales_api st force storesList (Except.error ())) s =
      (st.dbRow s).map fun row => row.quantity_sold := by
  simp only [monthly_sales_api]
  have hN : s ∈ (storesList.map fun t => (t, tierLookup st force t)).filterMap
      (fun x => match x.2 with
        | TierOutcome.needs => some x.1
        | TierOutcome.cached _ => none) :=
    (api_needing_mem st force storesList s).mpr ⟨hmem, hneeds⟩
  have hNe : ((storesList.map fun t => (t, tierLookup st force t)).filterMap
      (fun x => match x.2 with
        | TierOutcome.needs => some x.1
        | TierOutcome.cached _ => none)).isEmpty = false := by
    cases hc : (storesList.map fun t => (t, tierLookup st force t)).filterMap
        (fun x => match x.2 with
          | TierOutcome.needs => some x.1
          | TierOutcome.cached _ => none) with
    | nil =>
      rw [hc] at hN
      cases hN
    | cons a b => rfl
  simp only [hNe, Bool.false_eq_true, if_false]
  unfold pyDictOfList
  rw [List.foldl_append]
  have hk1 : s ∉ ((storesList.map fun t => (t, tierLookup st force t)).filterMap
      (fun x => match x.2 with
        | TierOutcome.cached q => some (x.1, q)
        | TierOutcome.needs => none)).map Prod.fst :=
    api_cached_not_key st force storesList s hneeds
  cases hrow : st.dbRow s with
  | none =>
    have hk2 : s ∉ (((storesList.map fun t => (t, tierLookup st force t)).filterMap
        (fun x => match x.2 with
          | TierOutcome.needs => some x.1
          | TierOutcome.cached _ => none)).filterMap fun t =>
        (st.dbRow t).map fun row => (t, row.quantity_sold)).map Prod.fst := by
      intro hx
      have h2 := (api_fallback_keys_sub st _ s hx).2
      rw [hrow] at h2
      cases h2
    rw [pyDictFold_get_not_mem _ _ _ hk2, pyDictFold_get_not_mem _ _ _ hk1, pyDictGet_nil]
    rfl
  | some row =>
    have hBmem : (s, row.quantity_sold) ∈
        ((storesList.map fun t => (t, tierLookup st force t)).filterMap
          (fun x => match x.2 with
            | TierOutcome.needs => some x.1
            | TierOutcome.cached _ => none)).filterMap fun t =>
          (st.dbRow t).map fun row => (t, row.quantity_sold) :=
      List.mem_filterMap.mpr ⟨s, hN, by rw [hrow]; rfl⟩
    have hNnd := api_needing_nodup st force storesList hnd
    have hBnd := api_fallback_keys_nodup st _ hNnd
    rw [pyDictFold_get_nodup _ _ _ _ hBnd hBmem]
    rfl

/-- Witness for the amended claim C8: store 3 misses both cache tiers
(stale row, no Redis entry), the bulk computation raises, and store 3
receives its stale persisted quantity 3. -/
theorem c8_witness :
    (([1, 2, 3] : List Int).Nodup ∧ (3 : Int) ∈ ([1, 2, 3] : List Int) ∧
        tierLookup c8state false 3 = TierOutcome.needs) ∧
      pyDictGet (monthly_sales_api c8state false [1, 2, 3] (Except.error ())) 3 =
        (c8state.dbRow 3).map fun row => row.quantity_sold :=
  ⟨⟨by decide, by decide, by decide⟩,
    c8_amended_stale_fallback c8state false [1, 2, 3] 3 (by decide) (by decide) (by decide)⟩

/-! Evaluation lemmas for binary64 rounding at the values of the
float-drift example.  Each partial sum below is the exact value of the
corresponding Python float partial sum of ten 0.1 summands
(0.1, 0.2, 0.30000000000000004, 0.4, 0.5, 0.6, 0.7,
0.7999999999999999, 0.8999999999999999, 0.9999999999999999). -/

theorem roundB64_eval (q : ℚ) (e : ℤ) (h0 : 0 < q)
    (h1 : (2 : ℚ) ^ (e + 52) ≤ q) (h2 : q < (2 : ℚ) ^ (e + 53)) :
    roundB64 q = (roundHalfEven (q / (2 : ℚ) ^ e) : ℚ) * (2 : ℚ) ^ e := by
  have hcast : ((2 : ℕ) : ℚ) = (2 : ℚ) := by norm_num
  have hl1 : e + 52 ≤ Int.log 2 q := by
    rw [← Int.zpow_le_iff_le_log (by norm_num) h0, hcast]
    exact h1
  have hl2 : Int.log 2 q < e + 53 := by
    rw [← Int.lt_zpow_iff_log_lt (by norm_num) h0, hcast]
    exact h2
  have hlog : Int.log 2 q = e + 52 := le_antisymm (by omega) hl1
  simp only [roundB64]
  rw [if_neg (ne_of_gt h0), abs_of_pos h0, hlog,
    (by ring : e + 52 - 52 = e), if_neg (not_lt.mpr h0.le)]
  ring

theorem roundB64_tenth : roundB64 (1 / 10) = 3602879701896397 / 2 ^ 55 := by
  rw [roundB64_eval (1 / 10) (-56) (by norm_num) (by norm_num) (by norm_num)]
  norm_num [roundHalfEven, Int.fract, Int.even_iff]

theorem fadd_step1 :
    fadd 0 (roundB64 (1 / 10)) = 3602879701896397 / 2 ^ 55 := by
  simp only [fadd, roundB64_tenth, zero_add]
  rw [roundB64_eval _ (-56) (by norm_num) (by norm_num) (by norm_num)]
  norm_num [roundHalfEven, Int.fract, Int.even_iff]

theorem fadd_step2 :
    fadd (3602879701896397 / 2 ^ 55) (roundB64 (1 / 10)) = 3602879701896397 / 2 ^ 54 := by
  simp only [fadd, roundB64_tenth]
  rw [roundB64_eval _ (-55) (by norm_num) (by norm_num) (by norm_num)]
  norm_num [roundHalfEven, Int.fract, Int.even_iff]

theorem fadd_step3 :
    fadd (3602879701896397 / 2 ^ 54) (roundB64 (1 / 10)) = 5404319552844596 / 2 ^ 54 := by
  simp only [fadd, roundB64_tenth]
  rw [roundB64_eval _ (-54) (by norm_num) (by norm_num) (by norm_num)]
  norm_num [roundHalfEven, Int.fract, Int.even_iff]

theorem fadd_step4 :
    fadd (5404319552844596 / 2 ^ 54) (roundB64 (1 / 10)) = 7205759403792794 / 2 ^ 54 := by
  simp only [fadd, roundB64_tenth]
  rw [roundB64_eval _ (-54) (by norm_num) (by norm_num) (by norm_num)]
  norm_num [roundHalfEven, Int.fract, Int.even_iff]

theorem fadd_step5 :
    fadd (7205759403792794 / 2 ^ 54) (roundB64 (1 / 10)) = 4503599627370496 / 2 ^ 53 := by
  simp only [fadd, roundB64_tenth]
  rw [roundB64_eval _ (-53) (by norm_num) (by norm_num) (by norm_num)]
  norm_num [roundHalfEven, Int.fract, Int.even_iff]

theorem fadd_step6 :
    fadd (4503599627370496 / 2 ^ 53) (roundB64 (1 / 10)) = 5404319552844595 / 2 ^ 53 := by
  simp only [fadd, roundB64_tenth]
  rw [roundB64_eval _ (-53) (by norm_num) (by norm_num) (by norm_num)]
  norm_num [roundHalfEven, Int.fract, Int.even_iff]

theorem fadd_step7 :
    fadd (5404319552844595 / 2 ^ 53) (roundB64 (1 / 10)) = 6305039478318694 / 2 ^ 53 := by
  simp only [fadd, roundB64_tenth]
  rw [roundB64_eval _ (-53) (by norm_num) (by norm_num) (by norm_num)]
  norm_num [roundHalfEven, Int.fract, Int.even_iff]

theorem fadd_step8 :
    fadd (6305039478318694 / 2 ^ 53) (roundB64 (1 / 10)) = 7205759403792793 / 2 ^ 53 := by
  simp only [fadd, roundB64_tenth]
  rw [roundB64_eval _ (-53) (by norm_num) (by norm_num) (by norm_num)]
  norm_num [roundHalfEven, Int.fract, Int.even_iff]

theorem fadd_step9 :
    fadd (7205759403792793 / 2 ^ 53) (roundB64 (1 / 10)) = 8106479329266892 / 2 ^ 53 := by
  simp only [fadd, roundB64_tenth]
  rw [roundB64_eval _ (-53) (by norm_num) (by norm_num) (by norm_num)]
  norm_num [roundHalfEven, Int.fract, Int.even_iff]

theorem fadd_step10 :
    fadd (8106479329266892 / 2 ^ 53) (roundB64 (1 / 10)) = 9007199254740991 / 2 ^ 53 := by
  simp only [fadd, roundB64_tenth]
  rw [roundB64_eval _ (-53) (by norm_num) (by norm_num) (by norm_num)]
  norm_num [roundHalfEven, Int.fract, Int.even_iff]

/-! Claim C5.  Arithmetic representation of the running sums.  The two
full-scan commands accumulate Decimal values; korona.py's single-store
and bulk aggregators accumulate Python binary64 floats (total_qty =
0.0 at line 270, results[store_db_id] += qty at line 409), so rounding
drift can occur there.  Binary64 rounding is modelled by the pure
rational function roundB64. -/

/-- Claim C5 counterexample: on a window holding one receipt with ten
line items of quantity 0.1 for the requested product and store,
calculate_monthly_sales under the source's binary64 float
accumulation returns 0 — the float partial sums end at
0.9999999999999999, truncated by int() to 0 — while the same scan
under the claimed exact decimal arithmetic returns 1.  The running sum
of the korona.py entry points is therefore not exact decimal
arithmetic, and the drift changes the reported total. -/
theorem c5_counterexample :
    calculate_monthly_sales_float "P" "S" tenTenthsPages = 0 ∧
      calculate_monthly_sales "P" "S" tenTenthsPages = 1 := by
  constructor
  · simp only [calculate_monthly_sales_float, tenTenthsPages, receiptScan]
    simp [singleReceiptStepFloat]
    rw [(by norm_num : (10 : ℚ)⁻¹ = 1 / 10)]
    rw [fadd_step1, fadd_step2, fadd_step3, fadd_step4, fadd_step5, fadd_step6, fadd_step7,
      fadd_step8, fadd_step9, fadd_step10]
    norm_num [pyInt_eq_floor]
  · norm_num [calculate_monthly_sales, tenTenthsPages, receiptScan, singlePageStep,
      singleReceiptStep, pyInt_eq_floor]

/-- Claim C5, amended: the full-scan entry points carry their running
sums in exact decimal arithmetic, but the single-store and bulk
aggregators of korona.py carry theirs in binary64 floating point,
where rounding drift can occur: on the ten-items-of-0.1 window both
korona.py entry points report 0 for the (store, product) pair while
both exact-decimal full scans report 1. -/
theorem c5_amended_korona_float_drift :
    calculate_monthly_sales_float "P" "S" tenTenthsPages = 0 ∧
      pyDictGet (calculate_monthly_sales_bulk_float "P" [(1, "S")] tenTenthsPages) 1 = some 0 ∧
      fetch_and_aggregate_sales tenTenthsPages "S" "P" = 1 ∧
      sync_all_aggregate_sales tenTenthsPages "S" "P" = 1 := by
  refine ⟨?_, ?_, ?_, ?_⟩
  · simp only [calculate_monthly_sales_float, tenTenthsPages, receiptScan]
    simp [singleReceiptStepFloat]
    rw [(by norm_num : (10 : ℚ)⁻¹ = 1 / 10)]
    rw [fadd_step1, fadd_step2, fadd_step3, fadd_step4, fadd_step5, fadd_step6, fadd_step7,
      fadd_step8, fadd_step9, fadd_step10]
    norm_num [pyInt_eq_floor]
  · simp only [calculate_monthly_sales_bulk_float, tenTenthsPages, receiptScan, storeMap,
      resultsInit, pyDictOfList]
    simp [bulkReceiptStepFloat, pyDictAddF, pyDictSet, pyDictGet]
    rw [(by norm_num : (10 : ℚ)⁻¹ = 1 / 10)]
    rw [fadd_step1, fadd_step2, fadd_step3, fadd_step4, fadd_step5, fadd_step6, fadd_step7,
      fadd_step8, fadd_step9, fadd_step10]
    norm_num [pyInt_eq_floor]
  · norm_num [fetch_and_aggregate_sales, tenTenthsPages, receiptScan, fullScanReceiptStep,
      bumpSales, (show ("P" : String) ≠ "" by decide), (show ("S" : String) ≠ "" by decide)]
  · norm_num [sync_all_aggregate_sales, tenTenthsPages, receiptScan, allScanReceiptStep,
      bumpSales, (show ("P" : String) ≠ "" by decide), (show ("S" : String) ≠ "" by decide)]

end S2U
